import Mathlib

/-!
Shallow embedding of the kai-hub capsule collision pipeline.

Sources embedded:
* `src/src/capsule_collision.py`    — base variant (`CapsuleCollisionEngine`), namespace `V1`;
* `src/src/capsule_collision_v2.py` — enhanced variant (`CollisionSystem` and friends), namespace `V2`.

Modelling conventions:
* Python floats are modelled as real numbers (`ℝ`); `math.sqrt` is `Real.sqrt`.
* Python strings are Lean `String`s; `s.lower()` is `String.toLower` (ASCII case folding,
  which agrees with Python on all keywords appearing in this repository), `sub in s` is
  substring containment on the character lists, and `s.split()` splits on whitespace and
  drops empty fragments, as Python does.
* Python `set` values derived from lists are modelled as first-occurrence-order deduplicated
  lists (`List.dedup` / `List.inter` / `List.union`); only their cardinalities and membership
  are observable in the embedded code.
* The `seen` set of the detectors is modelled as a list of keys with membership tests.
* Network / file / console side effects are out of the model: the orchestrator's fetch is an
  explicit `Option (List CapsuleData)` argument (`none` = the request raised, caught by the
  source's `try`), wall-clock timestamps are explicit `String` arguments, and report saving /
  publishing flags are omitted because they only perform I/O.
-/

namespace KaiHub

/-- Python's substring test `sub in s` on strings, via character lists. -/
def strContains (s sub : String) : Bool :=
  s.toList.tails.any (fun t => sub.toList.isPrefixOf t)

/-- Python's `str.lower()`: lowercase every character. -/
def pyLower (s : String) : String :=
  String.mk (s.toList.map Char.toLower)

/-- Helper for `pySplit`: walk the characters, accumulating the current word. -/
def pySplitAux : List Char → List Char → List String
  | [], acc => if acc = [] then [] else [String.mk acc.reverse]
  | c :: cs, acc =>
    if c.isWhitespace then
      if acc = [] then pySplitAux cs []
      else String.mk acc.reverse :: pySplitAux cs []
    else pySplitAux cs (c :: acc)

/-- Python's `str.split()` with no argument: split on whitespace runs, dropping empty
pieces. -/
def pySplit (s : String) : List String :=
  pySplitAux s.toList []

/-- Value `sum(x*x for x in v)`, the squared L2 norm of a vector. -/
noncomputable def sumSq (v : List ℝ) : ℝ :=
  (v.map (fun x => x * x)).sum

/-- Value `sum(a*b for a, b in zip(v1, v2))`: dot product with Python's `zip` truncation. -/
noncomputable def dotList (v1 v2 : List ℝ) : ℝ :=
  ((v1.zip v2).map (fun p => p.1 * p.2)).sum

/-- Function `cosine_similarity` — textually identical in `capsule_collision.py` (lines 141–153)
and `capsule_collision_v2.py` (lines 213–225): dot over product of norms, returning 0 for
empty input, length mismatch, or a zero norm (the source binds `dot`, `norm1`, `norm2`
before the zero-norm check; the bindings are inlined here). -/
noncomputable def cosine_similarity (v1 v2 : List ℝ) : ℝ :=
  if v1 = [] ∨ v2 = [] ∨ v1.length ≠ v2.length then 0
  else if Real.sqrt (sumSq v1) = 0 ∨ Real.sqrt (sumSq v2) = 0 then 0
  else dotList v1 v2 / (Real.sqrt (sumSq v1) * Real.sqrt (sumSq v2))

/-- Function `_is_similar_title` — `capsule_collision_v2.py` lines 273–284; the base variant
(`capsule_collision.py` lines 203–217) is identical except that it omits the
`if union else False` guard, which is unreachable because `kw1` is already known nonempty.
Both compute the Jaccard overlap of the lowercase whitespace-token sets of the two titles
and compare `len(intersection) / len(union) > 0.5`; since `union` is nonempty at the
comparison, it is written here denominator-cleared as `2·|intersection| > |union|`, which
is exactly equivalent (see `jaccard_half_iff`). -/
def is_similar_title (title1 title2 : String) : Bool :=
  let kw1 := (pySplit (pyLower title1)).dedup
  let kw2 := (pySplit (pyLower title2)).dedup
  if kw1 = [] ∨ kw2 = [] then false
  else
    let inter := kw1.inter kw2
    let union := kw1.union kw2
    if union = [] then false
    else decide (2 * inter.length > union.length)

/-- Key `tuple(sorted([id_a, id_b]))`: the unordered deduplication key used by both detectors. -/
def pairKey (x y : String) : String × String :=
  if x ≤ y then (x, y) else (y, x)

/-! ## Base variant: `src/src/capsule_collision.py` -/

namespace V1

/-- Dataclass `CapsuleVector` (capsule_collision.py lines 20–31). -/
structure CapsuleVector where
  id : String
  title : String
  domain : String
  topics : List String
  insight : String
  evidence : List String
  action_items : List String
  embedding : List ℝ
  vector_id : String

/-- Dataclass `CollisionPair` (capsule_collision.py lines 34–41). -/
structure CollisionPair where
  capsule_a : CapsuleVector
  capsule_b : CapsuleVector
  similarity : ℝ
  collision_type : String
  shared_topics : List String

/-- Dataclass `EmergedCapsule` (capsule_collision.py lines 44–56); `generated_at` is the
wall-clock default, modelled as the empty string (never observed by any claim). -/
structure EmergedCapsule where
  title : String
  domain : String
  topics : List String
  insight : String
  evidence : List String
  action_items : List String
  parent_capsules : List String
  collision_type : String
  emergence_score : ℝ
  generated_at : String

/-- Table `CapsuleVectorizer.DOMAIN_KEYWORDS` (capsule_collision.py lines 63–72); Python dict
iteration order is insertion order, kept here as a list. -/
def DOMAIN_KEYWORDS : List (String × List String) := [
  ("neuroscience", ["神经", "大脑", "皮层", "神经元", "信号", "运动", "感觉", "可塑性"]),
  ("ai", ["AI", "机器学习", "深度学习", "算法", "解码", "模型", "神经网络", "端到端"]),
  ("ethics", ["伦理", "隐私", "公平", "权利", "增强", "边界", "认知"]),
  ("materials", ["材料", "电极", "柔性", "生物相容", "纳米", "导电"]),
  ("medical", ["临床", "康复", "治疗", "患者", "运动障碍"]),
  ("physics", ["重力", "物理", "力学", "量子", "运动"]),
  ("technology", ["技术", "发明", "创新", "设备", "系统"]),
  ("biotech", ["生物", "合成", "遗传", "基因", "生命"])]

/-- Topic tokens of `_text_to_vector` (capsule_collision.py line 103). -/
def TOPIC_TOKENS : List String := ["BCI", "解码", "隐私", "伦理", "融合", "突破"]

/-- One domain-bucket score of `_text_to_vector` (capsule_collision.py line 99):
`sum(1 for kw in keywords if any(w in text.lower() for w in kw.split())) / max(len(keywords), 1)`. -/
noncomputable def keywordScore (text_lower : String) (keywords : List String) : ℝ :=
  ((keywords.filter (fun kw => (pySplit kw).any (fun w => strContains text_lower w))).length : ℝ) /
    ((max keywords.length 1 : ℕ) : ℝ)

/-- The pre-normalization vector built by `_text_to_vector` (capsule_collision.py
lines 95–104): 8 domain-bucket scores followed by 6 topic indicators. -/
noncomputable def raw_vector (text : String) : List ℝ :=
  DOMAIN_KEYWORDS.map (fun dk => keywordScore (pyLower text) dk.2) ++
    TOPIC_TOKENS.map (fun topic => if strContains text topic then (1 : ℝ) else 0)

/-- Function `CapsuleVectorizer._text_to_vector` (capsule_collision.py lines 93–111):
the raw vector, L2-normalized unless its norm is 0. -/
noncomputable def text_to_vector (text : String) : List ℝ :=
  if 0 < Real.sqrt (sumSq (raw_vector text)) then
    (raw_vector text).map (fun x => x / Real.sqrt (sumSq (raw_vector text)))
  else raw_vector text

/-- Function `_get_collision_type` (capsule_collision.py lines 219–230, via `_find_shared_topics`). -/
def get_collision_type (a b : CapsuleVector) : String :=
  if a.domain ≠ b.domain then "cross_domain"
  else if 0 < ((a.topics.inter b.topics).dedup).length then "complementary"
  else "same_domain"

/-- The `CollisionPair` built at capsule_collision.py lines 181–194. -/
def mkPair (a b : CapsuleVector) (sim : ℝ) : CollisionPair :=
  { capsule_a := a, capsule_b := b, similarity := sim,
    collision_type := get_collision_type a b,
    shared_topics := (a.topics.inter b.topics).dedup }

/-- Loop state of `find_collision_pairs`: accumulated pairs plus the `seen` key set. -/
structure DetectState where
  pairs : List CollisionPair
  seen : List (String × String)

/-- Body of the double loop of `find_collision_pairs` (capsule_collision.py lines 162–194)
for one candidate ordered pair. -/
noncomputable def detectStep (threshold : ℝ) (st : DetectState)
    (ab : CapsuleVector × CapsuleVector) : DetectState :=
  if ab.1.id = ab.2.id then st
  else if is_similar_title ab.1.title ab.2.title then st
  else if pairKey ab.1.id ab.2.id ∈ st.seen then st
  else
    let sim := cosine_similarity ab.1.embedding ab.2.embedding
    if threshold ≤ sim then
      { pairs := st.pairs ++ [mkPair ab.1 ab.2 sim],
        seen := pairKey ab.1.id ab.2.id :: st.seen }
    else st

/-- The candidate enumeration `for i in range(n): for j in range(i+1, n)` in iteration
order: all ordered pairs `(l[i], l[j])` with `i < j`. -/
def pairsOf {α : Type} : List α → List (α × α)
  | [] => []
  | a :: rest => rest.map (fun b => (a, b)) ++ pairsOf rest

/-- Comparison used by `pairs.sort(key=lambda x: -x.similarity)`: descending similarity. -/
def simDesc (p q : CollisionPair) : Prop := q.similarity ≤ p.similarity

noncomputable instance : DecidableRel simDesc :=
  fun p q => Real.decidableLE q.similarity p.similarity

instance : IsTotal CollisionPair simDesc :=
  ⟨fun p q => le_total q.similarity p.similarity⟩

instance : IsTrans CollisionPair simDesc :=
  ⟨fun _ _ _ hab hbc => le_trans hbc hab⟩

/-- Function `CapsuleCollisionEngine.find_collision_pairs` (capsule_collision.py lines 155–201):
enumerate i < j candidate pairs, guard against equal ids, near-duplicate titles and already
seen unordered keys, keep those with similarity at or above the threshold, then sort by
similarity descending and truncate to `max_pairs`. -/
noncomputable def find_collision_pairs (capsules : List CapsuleVector)
    (similarity_threshold : ℝ) (max_pairs : ℕ) : List CollisionPair :=
  let final := (pairsOf capsules).foldl (detectStep similarity_threshold) ⟨[], []⟩
  (List.insertionSort simDesc final.pairs).take max_pairs

/-- Function `_calculate_emergence_score` (capsule_collision.py lines 307–326). -/
noncomputable def calculate_emergence_score (a b : CapsuleVector) (pair : CollisionPair) : ℝ :=
  let score : ℝ :=
    (if pair.collision_type = "cross_domain" then 30
     else if pair.collision_type = "complementary" then 20 else 0) +
    pair.similarity * 30 +
    min ((pair.shared_topics.length : ℝ) * 10) 20 +
    min (((a.evidence.length : ℝ) + (b.evidence.length : ℝ)) * 5) 20
  min score 100

/-- Function `_merge_insights` (capsule_collision.py lines 274–289). -/
def merge_insights (a b : CapsuleVector) (pair : CollisionPair) : String :=
  let parts :=
    if pair.collision_type = "cross_domain" then
      ["通过跨域分析发现，" ++ a.domain ++ " 与 " ++ b.domain ++ " 存在深层关联：",
       "• " ++ a.domain ++ "视角: " ++ a.insight.take 100 ++ "...",
       "• " ++ b.domain ++ "视角: " ++ b.insight.take 100 ++ "...",
       "共同关注: " ++ String.intercalate ", " (pair.shared_topics.take 3)]
    else
      ["知识融合分析：",
       "• " ++ a.title ++ ": " ++ a.insight.take 150 ++ "...",
       "• " ++ b.title ++ ": " ++ b.insight.take 150 ++ "..."]
  String.intercalate "\n" parts

/-- Function `_merge_evidence` (capsule_collision.py lines 291–297). -/
def merge_evidence (a b : CapsuleVector) : List String :=
  (((a.evidence.take 2).map (fun e => "[A] " ++ e)) ++
   ((b.evidence.take 2).map (fun e => "[B] " ++ e)) ++
   ["来源: " ++ a.title.take 30 ++ " + " ++ b.title.take 30]).take 5

/-- Function `_merge_actions` (capsule_collision.py lines 299–305). -/
def merge_actions (a b : CapsuleVector) : List String :=
  ((a.action_items.take 2) ++ (b.action_items.take 2) ++
   ["基于融合分析制定下一步计划"]).take 5

/-- Function `CapsuleCollisionEngine.collide` (capsule_collision.py lines 232–272): build the merged
fields, compute the emergence score, and decline (return `none`) below the hardcoded
quality threshold 40. -/
noncomputable def collide (pair : CollisionPair) : Option EmergedCapsule :=
  let a := pair.capsule_a
  let b := pair.capsule_b
  let title :=
    if pair.collision_type = "cross_domain" then
      "跨域融合: " ++ a.domain ++ " + " ++ b.domain
    else
      "知识融合: " ++ a.title.take 20 ++ " + " ++ b.title.take 20
  let insight := merge_insights a b pair
  let evidence := merge_evidence a b
  let action_items := merge_actions a b
  let topics := ((a.topics ++ b.topics).dedup).take 10
  let emergence_score := calculate_emergence_score a b pair
  if emergence_score < 40 then none
  else some
    { title := title, domain := a.domain ++ "+" ++ b.domain, topics := topics,
      insight := insight, evidence := evidence, action_items := action_items,
      parent_capsules := [a.id, b.id], collision_type := pair.collision_type,
      emergence_score := emergence_score, generated_at := "" }

end V1

/-! ## Enhanced variant: `src/src/capsule_collision_v2.py` -/

namespace V2

/-- Value of the `datm_score` field: the source tolerates both a numeric value and a
structured breakdown dict with `truth`/`goodness`/`beauty`/`intelligence` components
(capsule_collision_v2.py lines 404–412). -/
inductive DatmScore where
  | num (x : ℝ)
  | dict (truth goodness beauty intelligence : ℝ)

/-- Normalization of a `datm_score` to a scalar, as done inline in `_calculate_score`
(capsule_collision_v2.py lines 404–414): a dict is averaged over its four components. -/
noncomputable def datmToFloat : DatmScore → ℝ
  | .num x => x
  | .dict t g b i => (t + g + b + i) / 4

/-- Dataclass `CapsuleData` (capsule_collision_v2.py lines 29–41); `created_at` is the
wall-clock default, modelled as a plain string field. -/
structure CapsuleData where
  id : String
  title : String
  domain : String
  topics : List String
  insight : String
  evidence : List String
  action_items : List String
  authors : List String
  datm_score : DatmScore
  created_at : String

/-- The `metadata` dict attached by `CapsuleVectorizer.vectorize`
(capsule_collision_v2.py lines 197–203), modelled as a structure with its five keys. -/
structure Metadata where
  domains : List String
  topics : List String
  datm_score : DatmScore
  evidence : List String
  action_items : List String

/-- Dataclass `CapsuleVector` (capsule_collision_v2.py lines 44–53). -/
structure CapsuleVector where
  id : String
  title : String
  domain : String
  topics : List String
  insight : String
  embedding : List ℝ
  metadata : Metadata

/-- Dataclass `CollisionPair` (capsule_collision_v2.py lines 56–64). The source fills
`collision_id` with a truncated md5 digest of `"{a.id}:{b.id}"`; the digest function is
abstracted as its (injective) pre-image string, which no claim observes. -/
structure CollisionPair where
  capsule_a : CapsuleVector
  capsule_b : CapsuleVector
  similarity : ℝ
  collision_type : String
  shared_topics : List String
  collision_id : String

/-- Dataclass `EmergedCapsule` (capsule_collision_v2.py lines 67–80); `generated_at` is the
wall-clock default, modelled as the empty string. -/
structure EmergedCapsule where
  title : String
  domain : String
  topics : List String
  insight : String
  evidence : List String
  action_items : List String
  parent_ids : List String
  collision_type : String
  emergence_score : ℝ
  embedding : List ℝ
  generated_at : String

/-- Table `DOMAIN_KEYWORDS` of the simple embedding provider
(capsule_collision_v2.py lines 105–122). -/
def DOMAIN_KEYWORDS : List (String × List String) := [
  ("neuroscience", ["神经", "大脑", "皮层", "神经元", "信号", "运动", "感觉", "可塑性",
    "neural", "brain", "cortex", "neuron", "motor", "sensory"]),
  ("ai", ["AI", "机器学习", "深度学习", "算法", "解码", "模型", "神经网络", "端到端",
    "ai", "ml", "deep learning", "algorithm", "decoding", "neural network"]),
  ("ethics", ["伦理", "隐私", "公平", "权利", "增强", "边界", "认知",
    "ethics", "privacy", "fairness", "rights", "enhancement"]),
  ("materials", ["材料", "电极", "柔性", "生物相容", "纳米", "导电",
    "material", "electrode", "flexible", "biocompatible"]),
  ("medical", ["临床", "康复", "治疗", "患者", "运动障碍",
    "clinical", "rehabilitation", "therapy", "patient"]),
  ("physics", ["重力", "物理", "力学", "量子", "运动",
    "gravity", "physics", "quantum", "mechanics"]),
  ("technology", ["技术", "发明", "创新", "设备", "系统",
    "technology", "invention", "innovation", "device"]),
  ("biotech", ["生物", "合成", "遗传", "基因", "生命",
    "biology", "synthetic", "genetic", "gene"])]

/-- Topic tokens of `_simple_embedding` (capsule_collision_v2.py lines 160–162). -/
def TOPIC_TOKENS : List String := ["BCI", "解码", "隐私", "伦理", "融合", "突破",
  "学习", "反馈", "信号", "控制", "接口", "脑", "AI", "ML", "深度学习", "实时"]

/-- One domain-bucket score of `_simple_embedding` (capsule_collision_v2.py lines 155–157):
`sum(1 for kw in keywords if kw.lower() in text_lower) / max(len(keywords), 1)`. -/
noncomputable def keywordScore (text_lower : String) (keywords : List String) : ℝ :=
  ((keywords.filter (fun kw => strContains text_lower (pyLower kw))).length : ℝ) /
    ((max keywords.length 1 : ℕ) : ℝ)

/-- The pre-normalization vector built by `_simple_embedding` (capsule_collision_v2.py
lines 151–163): 8 domain-bucket scores followed by 16 topic indicators. -/
noncomputable def raw_vector (text : String) : List ℝ :=
  DOMAIN_KEYWORDS.map (fun dk => keywordScore (pyLower text) dk.2) ++
    TOPIC_TOKENS.map (fun topic => if strContains text topic then (1 : ℝ) else 0)

/-- Function `EmbeddingProvider._simple_embedding` (capsule_collision_v2.py lines 149–170):
the raw vector, L2-normalized unless its norm is 0. The repository always constructs the
provider with `provider="simple"`, so this is the embedding path `get_embedding` takes. -/
noncomputable def simple_embedding (text : String) : List ℝ :=
  if 0 < Real.sqrt (sumSq (raw_vector text)) then
    (raw_vector text).map (fun x => x / Real.sqrt (sumSq (raw_vector text)))
  else raw_vector text

/-- Function `CapsuleVectorizer.vectorize` (capsule_collision_v2.py lines 183–204). -/
noncomputable def vectorize (c : CapsuleData) : CapsuleVector :=
  let text := c.title ++ " " ++ c.insight ++ " " ++ String.intercalate " " c.topics
  { id := c.id, title := c.title, domain := c.domain, topics := c.topics,
    insight := c.insight, embedding := simple_embedding text,
    metadata := { domains := [c.domain], topics := c.topics, datm_score := c.datm_score,
                  evidence := c.evidence, action_items := c.action_items } }

/-- Function `_get_collision_type` (capsule_collision_v2.py lines 286–293). -/
def get_collision_type (a b : CapsuleVector) : String :=
  if a.domain ≠ b.domain then "cross_domain"
  else if 0 < ((a.topics.inter b.topics).dedup).length then "complementary"
  else "same_domain"

/-- The `CollisionPair` built at capsule_collision_v2.py lines 256–266. -/
def mkPair (a b : CapsuleVector) (sim : ℝ) : CollisionPair :=
  { capsule_a := a, capsule_b := b, similarity := sim,
    collision_type := get_collision_type a b,
    shared_topics := (a.topics.inter b.topics).dedup,
    collision_id := a.id ++ ":" ++ b.id }

/-- Loop state of `find_pairs`: accumulated pairs plus the `seen` key set. -/
structure DetectState where
  pairs : List CollisionPair
  seen : List (String × String)

/-- Body of the double loop of `find_pairs` (capsule_collision_v2.py lines 235–267)
for one candidate ordered pair. -/
noncomputable def detectStep (threshold : ℝ) (st : DetectState)
    (ab : CapsuleVector × CapsuleVector) : DetectState :=
  if ab.1.id = ab.2.id then st
  else if is_similar_title ab.1.title ab.2.title then st
  else if pairKey ab.1.id ab.2.id ∈ st.seen then st
  else
    let sim := cosine_similarity ab.1.embedding ab.2.embedding
    if threshold ≤ sim then
      { pairs := st.pairs ++ [mkPair ab.1 ab.2 sim],
        seen := pairKey ab.1.id ab.2.id :: st.seen }
    else st

/-- Comparison used by `pairs.sort(key=lambda x: -x.similarity)`: descending similarity. -/
def simDesc (p q : CollisionPair) : Prop := q.similarity ≤ p.similarity

noncomputable instance : DecidableRel simDesc :=
  fun p q => Real.decidableLE q.similarity p.similarity

instance : IsTotal CollisionPair simDesc :=
  ⟨fun p q => le_total q.similarity p.similarity⟩

instance : IsTrans CollisionPair simDesc :=
  ⟨fun _ _ _ hab hbc => le_trans hbc hab⟩

/-- Function `CollisionDetector.find_pairs` (capsule_collision_v2.py lines 227–271):
enumerate i < j candidate pairs, guard against equal ids, near-duplicate titles and already
seen unordered keys, keep those with similarity at or above the detector's threshold, then
sort by similarity descending and truncate to `max_pairs`. -/
noncomputable def find_pairs (similarity_threshold : ℝ) (capsules : List CapsuleVector)
    (max_pairs : ℕ) : List CollisionPair :=
  let final := (V1.pairsOf capsules).foldl (detectStep similarity_threshold) ⟨[], []⟩
  (List.insertionSort simDesc final.pairs).take max_pairs

/-- Function `_calculate_score` (capsule_collision_v2.py lines 387–416): collision-type
bonus, similarity term, shared-topic term with multiplier 8 capped at 20, and a DATM
quality term `min((datm_a + datm_b) * 0.3, 20)`; the total is capped at 100. -/
noncomputable def calculate_score (a b : CapsuleVector) (pair : CollisionPair) : ℝ :=
  let datm_a := datmToFloat a.metadata.datm_score
  let datm_b := datmToFloat b.metadata.datm_score
  let score : ℝ :=
    (if pair.collision_type = "cross_domain" then 30
     else if pair.collision_type = "complementary" then 20 else 0) +
    pair.similarity * 30 +
    min ((pair.shared_topics.length : ℝ) * 8) 20 +
    min ((datm_a + datm_b) * 0.3) 20
  min score 100

/-- Function `_generate_title` (capsule_collision_v2.py lines 343–350). -/
def generate_title (a b : CapsuleVector) (pair : CollisionPair) : String :=
  if pair.collision_type = "cross_domain" then
    "跨域融合: " ++ a.domain ++ " + " ++ b.domain
  else if pair.collision_type = "complementary" then
    "融合: " ++ a.title.take 25 ++ " + " ++ b.title.take 25
  else
    "深化: " ++ a.title.take 30 ++ " + " ++ b.title.take 30

/-- Function `_merge_insights` (capsule_collision_v2.py lines 352–369). -/
def merge_insights (a b : CapsuleVector) (pair : CollisionPair) : String :=
  let parts :=
    if pair.collision_type = "cross_domain" then
      ["【跨域分析】" ++ a.domain ++ " 与 " ++ b.domain ++ " 的关联探索：",
       "\n📌 " ++ a.domain ++ "视角：" ++ a.insight.take 200 ++ "...",
       "\n📌 " ++ b.domain ++ "视角：" ++ b.insight.take 200 ++ "..."] ++
      (if pair.shared_topics ≠ [] then
        ["\n🔗 共同关注：" ++ String.intercalate ", " (pair.shared_topics.take 5)]
       else []) ++
      ["\n💡 融合洞察：通过跨域分析发现，两个领域在 " ++
        pair.shared_topics.headD "多个方面" ++ " 存在深层关联，建议进一步研究。"]
    else
      ["【知识融合】基于两个胶囊的综合分析：",
       "\n• " ++ a.title ++ "：" ++ a.insight.take 150 ++ "...",
       "\n• " ++ b.title ++ "：" ++ b.insight.take 150 ++ "...",
       "\n💡 融合洞察：两个胶囊相互补充，形成更完整的知识图景。"]
  String.intercalate "\n" parts

/-- Function `_merge_evidence` (capsule_collision_v2.py lines 371–377). -/
def merge_evidence (a b : CapsuleVector) : List String :=
  (((a.metadata.evidence.take 2).map (fun e => "[来自 " ++ a.title.take 20 ++ "] " ++ e)) ++
   ((b.metadata.evidence.take 2).map (fun e => "[来自 " ++ b.title.take 20 ++ "] " ++ e)) ++
   ["💡 证据来源：跨胶囊融合分析"]).take 5

/-- Function `_merge_actions` (capsule_collision_v2.py lines 379–385). -/
def merge_actions (a b : CapsuleVector) : List String :=
  ((a.metadata.action_items.take 2) ++ (b.metadata.action_items.take 2) ++
   ["📋 基于融合分析制定下一步研究计划"]).take 5

/-- Function `_fuse_embedding` (capsule_collision_v2.py lines 418–433): similarity-weighted
average of the parent embeddings, then L2 normalization. The source indexes `e2[i]` for
`i < len(e1)` and would raise when `e2` is shorter; out-of-range access is modelled as 0. -/
noncomputable def fuse_embedding (e1 e2 : List ℝ) (ratio : ℝ) : List ℝ :=
  if e1 = [] then e2
  else if e2 = [] then e1
  else
    let fused := (List.range e1.length).map
      (fun i => e1.getD i 0 * (1 - ratio) + e2.getD i 0 * ratio)
    let norm := Real.sqrt (sumSq fused)
    if 0 < norm then fused.map (fun x => x / norm) else fused

/-- Function `CapsuleFusionEngine.fuse` (capsule_collision_v2.py lines 302–341): build the
merged fields, compute the score with `_calculate_score`, decline (return `none`) when it is
below the engine's configured `min_score`, otherwise emit the fused capsule. -/
noncomputable def fuse (min_score : ℝ) (pair : CollisionPair) : Option EmergedCapsule :=
  let a := pair.capsule_a
  let b := pair.capsule_b
  let title := generate_title a b pair
  let insight := merge_insights a b pair
  let evidence := merge_evidence a b
  let actions := merge_actions a b
  let topics := ((a.topics ++ b.topics).dedup).take 10
  let score := calculate_score a b pair
  if score < min_score then none
  else some
    { title := title, domain := a.domain ++ "+" ++ b.domain, topics := topics,
      insight := insight, evidence := evidence, action_items := actions,
      parent_ids := [a.id, b.id], collision_type := pair.collision_type,
      emergence_score := score,
      embedding := fuse_embedding a.embedding b.embedding pair.similarity,
      generated_at := "" }

/-- The `stats` counters of `CollisionSystem` (capsule_collision_v2.py lines 458–462). -/
structure Stats where
  total_runs : ℕ
  total_collisions : ℕ
  total_emerged : ℕ
deriving DecidableEq

/-- Configuration of `CollisionSystem.__init__` (capsule_collision_v2.py lines 439–451):
the detector's similarity threshold and the fusion engine's minimum emergence score
(`capsulehub_url` and the provider name only select I/O collaborators). -/
structure CollisionSystemConfig where
  similarity_threshold : ℝ
  min_emergence_score : ℝ

/-- Mutable state of a `CollisionSystem` instance (capsule_collision_v2.py lines 453–462). -/
structure CollisionSystemState where
  capsules : List CapsuleData
  vectors : List CapsuleVector
  emerged : List EmergedCapsule
  last_run : Option String
  stats : Stats

/-- Function `CollisionSystem.load_capsules` (capsule_collision_v2.py lines 464–494).
The HTTP fetch is an explicit argument: `none` means the request (or JSON decoding) raised,
which the source's `except` turns into a return of 0 with the state untouched; `some cs`
replaces `capsules` with the fetched records and `vectors` with their vectorizations, and
returns the count. -/
noncomputable def load_capsules (fetched : Option (List CapsuleData))
    (st : CollisionSystemState) : ℕ × CollisionSystemState :=
  match fetched with
  | none => (0, st)
  | some cs => (cs.length, { st with capsules := cs, vectors := cs.map vectorize })

/-- Result value of `CollisionSystem.run`: either the early `{"error": "No capsules loaded"}`
dict or the statistics dict of a completed cycle (capsule_collision_v2.py lines 504–505 and
553–560); the `by_type` breakdown is derived console bookkeeping and is not modelled. -/
inductive RunResult where
  | error (msg : String)
  | report (run_time : String) (source_capsules : ℕ) (collision_pairs : ℕ)
      (emerged_capsules : ℕ) (high_quality : ℕ)
deriving DecidableEq

/-- Whether a `RunResult` is the error outcome. -/
def RunResult.isError : RunResult → Bool
  | .error _ => true
  | .report _ _ _ _ _ => false

/-- Function `CollisionSystem.run` (capsule_collision_v2.py lines 496–560): load capsules,
return `{"error": "No capsules loaded"}` when the count is 0, otherwise detect pairs
(`find_pairs` with the default cap 100), fuse them discarding declines, update the emerged
list, `last_run` timestamp (the explicit `now` argument) and the running totals, and report
the cycle statistics. The `save_emerged` / `publish_to_moltbook` branches only perform I/O
and are not modelled. -/
noncomputable def run (cfg : CollisionSystemConfig) (fetched : Option (List CapsuleData))
    (now : String) (st : CollisionSystemState) : RunResult × CollisionSystemState :=
  let c := load_capsules fetched st
  let st1 := c.2
  if c.1 = 0 then (RunResult.error "No capsules loaded", st1)
  else
    let pairs := find_pairs cfg.similarity_threshold st1.vectors 100
    let emerged := pairs.filterMap (fuse cfg.min_emergence_score)
    let st2 : CollisionSystemState :=
      { st1 with
        emerged := emerged,
        last_run := some now,
        stats := { total_runs := st1.stats.total_runs + 1,
                   total_collisions := st1.stats.total_collisions + pairs.length,
                   total_emerged := st1.stats.total_emerged + emerged.length } }
    (RunResult.report now c.1 pairs.length emerged.length
      ((emerged.filter (fun e => (70 : ℝ) ≤ e.emergence_score)).length), st2)

/-- Outcome of one invocation of `self.run(...)` inside the scheduler's worker:
either it returns normally or it raises. -/
inductive CycleOutcome where
  | ok
  | raised
deriving DecidableEq

/-- The fixed backoff of the scheduler's `except` branch: `time.sleep(60)`
(capsule_collision_v2.py line 676). -/
def backoff : ℕ := 60

/-- Wait performed after the n-th worker iteration of `run_continuous`
(capsule_collision_v2.py lines 669–676): `interval` seconds after a normal cycle,
`backoff` (60) seconds after a cycle that raised — the `except` catches the raise,
so the iteration always reaches its sleep. -/
def cycleWait (o : CycleOutcome) (interval : ℕ) : ℕ :=
  match o with
  | .ok => interval
  | .raised => backoff

/-- Start time (in seconds from the worker's start) of the n-th cycle invocation of
`CollisionSystem.run_continuous`'s worker loop (capsule_collision_v2.py lines 660–683),
given which invocations raise. The `while True` loop has no exit and the blanket `except`
catches every cycle failure, so invocation `n` exists for every `n`: this total recursion is
the shallow embedding of that never-terminating loop. -/
def invocation_time (outcomes : ℕ → CycleOutcome) (interval : ℕ) : ℕ → ℕ
  | 0 => 0
  | n + 1 => invocation_time outcomes interval n + cycleWait (outcomes n) interval

end V2

/-- Unordered id key of an emitted pair (base variant). -/
def V1.pairIdKey (p : V1.CollisionPair) : String × String :=
  pairKey p.capsule_a.id p.capsule_b.id

/-- Unordered id key of an emitted pair (enhanced variant). -/
def V2.pairIdKey (p : V2.CollisionPair) : String × String :=
  pairKey p.capsule_a.id p.capsule_b.id

/-- Modelled from the spec: the emergence-score formula exactly as claim C1 states it —
collision-type bonus, `similarity × 30`, topic term `min(10 × |sharedTopics|, 20)`,
evidence term `min(5 × (|evidence_A| + |evidence_B|), 20)`, and (weighted variant) an
externally-supplied quality term capped at 20 added on top of the other terms. -/
noncomputable def spec_claimed_score (ct : String) (sim : ℝ) (nShared nEvA nEvB : ℕ)
    (quality : ℝ) : ℝ :=
  (if ct = "cross_domain" then 30 else if ct = "complementary" then 20 else 0) +
  sim * 30 + min (10 * (nShared : ℝ)) 20 + min (5 * ((nEvA : ℝ) + (nEvB : ℝ))) 20 +
  min quality 20

/-! Concrete inputs used by counterexamples and witnesses. -/

/-- A concrete enhanced-variant capsule vector. -/
noncomputable def exCapA : V2.CapsuleVector :=
  { id := "a", title := "alpha", domain := "d", topics := ["t"], insight := "",
    embedding := [1],
    metadata := { domains := ["d"], topics := ["t"], datm_score := .num 0,
                  evidence := ["e"], action_items := [] } }

/-- A second concrete enhanced-variant capsule vector, same domain, sharing topic `"t"`. -/
noncomputable def exCapB : V2.CapsuleVector :=
  { id := "b", title := "beta", domain := "d", topics := ["t"], insight := "",
    embedding := [1],
    metadata := { domains := ["d"], topics := ["t"], datm_score := .num 0,
                  evidence := ["e"], action_items := [] } }

/-- The collision pair the enhanced detector would build from `exCapA`/`exCapB` with
similarity 0: a `"complementary"` pair with one shared topic. -/
noncomputable def exPair : V2.CollisionPair := V2.mkPair exCapA exCapB 0

/-- A concrete base-variant capsule vector. -/
noncomputable def exCapA1 : V1.CapsuleVector :=
  { id := "a", title := "alpha", domain := "d", topics := ["t"], insight := "",
    evidence := ["e"], action_items := [], embedding := [1], vector_id := "va" }

/-- A second concrete base-variant capsule vector, same domain, sharing topic `"t"`. -/
noncomputable def exCapB1 : V1.CapsuleVector :=
  { id := "b", title := "beta", domain := "d", topics := ["t"], insight := "",
    evidence := ["e"], action_items := [], embedding := [1], vector_id := "vb" }

/-- The collision pair the base detector would build from `exCapA1`/`exCapB1` with
similarity 1/2. -/
noncomputable def exPair1 : V1.CollisionPair := V1.mkPair exCapA1 exCapB1 (1 / 2)

/-- A fresh orchestrator state, as set by `CollisionSystem.__init__`. -/
noncomputable def st0 : V2.CollisionSystemState :=
  { capsules := [], vectors := [], emerged := [], last_run := none,
    stats := { total_runs := 0, total_collisions := 0, total_emerged := 0 } }

/-- The orchestrator configuration used by the repository's entry points
(`similarity_threshold=0.2`, `min_emergence_score=50.0`). -/
noncomputable def cfg0 : V2.CollisionSystemConfig :=
  { similarity_threshold := 0.2, min_emergence_score := 50 }

/-! ## Foundational lemmas about the vector arithmetic -/

/-- The source's Jaccard comparison `k / n > 0.5` (exact rational arithmetic) agrees with
the denominator-cleared form `2k > n` used in `is_similar_title`, for nonempty unions. -/
theorem jaccard_half_iff (k n : ℕ) (h : 0 < n) :
    ((k : ℚ) / (n : ℚ) > 1 / 2) ↔ 2 * k > n := by
  rw [gt_iff_lt, div_lt_div_iff₀ (by norm_num) (by exact_mod_cast h)]
  constructor
  · intro hh
    have : (n : ℚ) < 2 * k := by linarith
    exact_mod_cast this
  · intro hh
    have : (n : ℚ) < 2 * k := by exact_mod_cast hh
    linarith

theorem pairKey_comm (x y : String) : pairKey x y = pairKey y x := by
  unfold pairKey
  rcases le_or_lt x y with h | h
  · rcases eq_or_lt_of_le h with rfl | hlt
    · simp
    · rw [if_pos h, if_neg (not_le_of_lt hlt)]
  · rw [if_neg (not_le_of_lt h), if_pos (le_of_lt h)]

theorem dotList_comm (u : List ℝ) : ∀ v : List ℝ, dotList u v = dotList v u := by
  induction u with
  | nil => intro v; cases v <;> simp [dotList]
  | cons a u ih =>
    intro v
    cases v with
    | nil => simp [dotList]
    | cons b v => simp [dotList, List.zip_cons_cons, mul_comm a b]; simpa [dotList] using ih v

theorem sumSq_nonneg (v : List ℝ) : 0 ≤ sumSq v := by
  induction v with
  | nil => simp [sumSq]
  | cons a v ih =>
    simp only [sumSq, List.map_cons, List.sum_cons]
    have ha := mul_self_nonneg a
    simp only [sumSq] at ih
    linarith

theorem sumSq_eq_zero_iff (v : List ℝ) : sumSq v = 0 ↔ ∀ x ∈ v, x = 0 := by
  induction v with
  | nil => simp [sumSq]
  | cons a v ih =>
    simp only [sumSq, List.map_cons, List.sum_cons, List.mem_cons]
    simp only [sumSq] at ih
    constructor
    · intro h
      have ha := mul_self_nonneg a
      have hv : (0 : ℝ) ≤ (v.map (fun x => x * x)).sum := sumSq_nonneg v
      have ha0 : a * a = 0 := by linarith
      have hv0 : (v.map (fun x => x * x)).sum = 0 := by linarith
      intro x hx
      rcases hx with rfl | hx
      · exact mul_self_eq_zero.mp ha0
      · exact (ih.mp hv0) x hx
    · intro h
      have ha : a = 0 := h a (Or.inl rfl)
      have hv : (v.map (fun x => x * x)).sum = 0 := ih.mpr (fun x hx => h x (Or.inr hx))
      rw [ha, hv]
      ring

theorem dotList_self (v : List ℝ) : dotList v v = sumSq v := by
  induction v with
  | nil => simp [dotList, sumSq]
  | cons a v ih => simp [dotList, sumSq, List.zip_cons_cons] at ih ⊢; linarith

theorem sumSq_map_div (v : List ℝ) (c : ℝ) :
    sumSq (v.map (fun x => x / c)) = sumSq v / (c * c) := by
  induction v with
  | nil => simp [sumSq]
  | cons a v ih =>
    simp only [sumSq, List.map_cons, List.sum_cons, List.map_map] at ih ⊢
    rw [ih, div_mul_div_comm, div_add_div_same]

/-- Helper: the guard condition of `cosine_similarity` is symmetric in its arguments. -/
theorem cosine_guard_flip (u v : List ℝ) (h : u = [] ∨ v = [] ∨ u.length ≠ v.length) :
    v = [] ∨ u = [] ∨ v.length ≠ u.length := by
  rcases h with h | h | h
  · exact Or.inr (Or.inl h)
  · exact Or.inl h
  · exact Or.inr (Or.inr (Ne.symm h))

theorem cosine_similarity_comm (u v : List ℝ) :
    cosine_similarity u v = cosine_similarity v u := by
  unfold cosine_similarity
  by_cases h : u = [] ∨ v = [] ∨ u.length ≠ v.length
  · rw [if_pos h, if_pos (cosine_guard_flip u v h)]
  · rw [if_neg h, if_neg (fun hh => h (cosine_guard_flip v u hh))]
    by_cases h2 : Real.sqrt (sumSq u) = 0 ∨ Real.sqrt (sumSq v) = 0
    · rw [if_pos h2, if_pos h2.symm]
    · rw [if_neg h2, if_neg (fun hh => h2 hh.symm), dotList_comm, mul_comm]

theorem cosine_similarity_self (u : List ℝ) (h : ∃ x ∈ u, x ≠ 0) :
    cosine_similarity u u = 1 := by
  obtain ⟨x, hxu, hx⟩ := h
  have hnil : u ≠ [] := by rintro rfl; exact absurd hxu (List.not_mem_nil x)
  have hs : sumSq u ≠ 0 := fun h0 => hx ((sumSq_eq_zero_iff u).mp h0 x hxu)
  have hpos : 0 < sumSq u := lt_of_le_of_ne (sumSq_nonneg u) (Ne.symm hs)
  have hsqrt : Real.sqrt (sumSq u) ≠ 0 := by
    have := Real.sqrt_pos.mpr hpos
    exact ne_of_gt this
  unfold cosine_similarity
  rw [if_neg (by simp [hnil]), if_neg (by simp [hsqrt]), dotList_self,
    Real.mul_self_sqrt (sumSq_nonneg u), div_self hs]

theorem cosine_similarity_zero (u v : List ℝ)
    (h : (∀ x ∈ u, x = 0) ∨ (∀ x ∈ v, x = 0)) : cosine_similarity u v = 0 := by
  unfold cosine_similarity
  by_cases h1 : u = [] ∨ v = [] ∨ u.length ≠ v.length
  · rw [if_pos h1]
  · rw [if_neg h1]
    have h2 : Real.sqrt (sumSq u) = 0 ∨ Real.sqrt (sumSq v) = 0 := by
      rcases h with h | h
      · exact Or.inl (by rw [(sumSq_eq_zero_iff u).mpr h, Real.sqrt_zero])
      · exact Or.inr (by rw [(sumSq_eq_zero_iff v).mpr h, Real.sqrt_zero])
    rw [if_pos h2]

/-! ## L2 normalization -/

/-- Properties of the shared normalization tail of both vectorizers: the result keeps the
raw vector's length, and is either the raw all-zero vector or has L2 norm 1. -/
theorem normalized_props (raw : List ℝ) :
    (if 0 < Real.sqrt (sumSq raw) then
      raw.map (fun x => x / Real.sqrt (sumSq raw)) else raw).length = raw.length ∧
    ((∀ x ∈ (if 0 < Real.sqrt (sumSq raw) then
        raw.map (fun x => x / Real.sqrt (sumSq raw)) else raw), x = 0) ∨
      Real.sqrt (sumSq (if 0 < Real.sqrt (sumSq raw) then
        raw.map (fun x => x / Real.sqrt (sumSq raw)) else raw)) = 1) := by
  by_cases h : 0 < Real.sqrt (sumSq raw)
  · rw [if_pos h]
    refine ⟨List.length_map raw _, Or.inr ?_⟩
    have hs : 0 < sumSq raw := by
      by_contra hle
      push_neg at hle
      have : sumSq raw = 0 := le_antisymm hle (sumSq_nonneg raw)
      rw [this, Real.sqrt_zero] at h
      exact lt_irrefl 0 h
    rw [sumSq_map_div, Real.mul_self_sqrt (le_of_lt hs), div_self (ne_of_gt hs),
      Real.sqrt_one]
  · rw [if_neg h]
    refine ⟨rfl, Or.inl ?_⟩
    have h0 : Real.sqrt (sumSq raw) = 0 :=
      le_antisymm (not_lt.mp h) (Real.sqrt_nonneg _)
    have : sumSq raw = 0 := by
      have := Real.sqrt_eq_zero (sumSq_nonneg raw) |>.mp h0
      exact this
    exact (sumSq_eq_zero_iff raw).mp this

/-! ## Detection loop invariants -/

/-- Invariant preservation through `List.foldl`. -/
theorem foldl_inv {α σ : Type} (P : σ → Prop) (step : σ → α → σ)
    (hstep : ∀ s a, P s → P (step s a)) :
    ∀ (l : List α) (s : σ), P s → P (l.foldl step s) := by
  intro l
  induction l with
  | nil => intro s h; exact h
  | cons a l ih => intro s h; exact ih _ (hstep s a h)

/-- Pointwise invariant over the pairs accumulated by the base detection step: any property
holding of every already accumulated pair, and of every pair the step can append, holds
after the step. -/
theorem V1.detectStep_pointwise1 (threshold : ℝ) (P : V1.CollisionPair → Prop)
    (st : V1.DetectState) (ab : V1.CapsuleVector × V1.CapsuleVector)
    (hold : ∀ p ∈ st.pairs, P p)
    (hnew : ∀ sim, ab.1.id ≠ ab.2.id →
      is_similar_title ab.1.title ab.2.title = false →
      threshold ≤ sim → P (V1.mkPair ab.1 ab.2 sim)) :
    ∀ p ∈ (V1.detectStep threshold st ab).pairs, P p := by
  simp only [V1.detectStep]
  split_ifs with h1 h2 h3 h4
  · exact hold
  · exact hold
  · exact hold
  · intro p hp
    simp only [List.mem_append, List.mem_singleton] at hp
    rcases hp with hp | rfl
    · exact hold p hp
    · exact hnew _ h1 (Bool.not_eq_true _ ▸ by simpa using h2) h4
  · exact hold

/-- Invariant through the base detection step: every accumulated pair's unordered id key is
in `seen`, and the accumulated keys are pairwise distinct. -/
theorem V1.detectStep_dedup1 (threshold : ℝ)
    (st : V1.DetectState) (ab : V1.CapsuleVector × V1.CapsuleVector)
    (h : (∀ p ∈ st.pairs, V1.pairIdKey p ∈ st.seen) ∧
      st.pairs.Pairwise (fun p q => V1.pairIdKey p ≠ V1.pairIdKey q)) :
    (∀ p ∈ (V1.detectStep threshold st ab).pairs,
        V1.pairIdKey p ∈ (V1.detectStep threshold st ab).seen) ∧
      (V1.detectStep threshold st ab).pairs.Pairwise
        (fun p q => V1.pairIdKey p ≠ V1.pairIdKey q) := by
  obtain ⟨hseen, hpw⟩ := h
  simp only [V1.detectStep]
  split_ifs with h1 h2 h3 h4
  · exact ⟨hseen, hpw⟩
  · exact ⟨hseen, hpw⟩
  · exact ⟨hseen, hpw⟩
  · constructor
    · intro p hp
      simp only [List.mem_append, List.mem_singleton] at hp
      rcases hp with hp | rfl
      · exact List.mem_cons_of_mem _ (hseen p hp)
      · exact List.mem_cons_self _ _
    · rw [List.pairwise_append]
      refine ⟨hpw, List.pairwise_singleton _ _, ?_⟩
      intro p hp q hq
      rw [List.mem_singleton] at hq
      subst hq
      intro heq
      apply h3
      show V1.pairIdKey (V1.mkPair ab.1 ab.2
        (cosine_similarity ab.1.embedding ab.2.embedding)) ∈ st.seen
      rw [← heq]
      exact hseen p hp
  · exact ⟨hseen, hpw⟩

/-- Pointwise invariant over the pairs accumulated by the enhanced detection step. -/
theorem V2.detectStep_pointwise2 (threshold : ℝ) (P : V2.CollisionPair → Prop)
    (st : V2.DetectState) (ab : V2.CapsuleVector × V2.CapsuleVector)
    (hold : ∀ p ∈ st.pairs, P p)
    (hnew : ∀ sim, ab.1.id ≠ ab.2.id →
      is_similar_title ab.1.title ab.2.title = false →
      threshold ≤ sim → P (V2.mkPair ab.1 ab.2 sim)) :
    ∀ p ∈ (V2.detectStep threshold st ab).pairs, P p := by
  simp only [V2.detectStep]
  split_ifs with h1 h2 h3 h4
  · exact hold
  · exact hold
  · exact hold
  · intro p hp
    simp only [List.mem_append, List.mem_singleton] at hp
    rcases hp with hp | rfl
    · exact hold p hp
    · exact hnew _ h1 (Bool.not_eq_true _ ▸ by simpa using h2) h4
  · exact hold

/-- Invariant through the enhanced detection step: every accumulated pair's unordered id
key is in `seen`, and the accumulated keys are pairwise distinct. -/
theorem V2.detectStep_dedup2 (threshold : ℝ)
    (st : V2.DetectState) (ab : V2.CapsuleVector × V2.CapsuleVector)
    (h : (∀ p ∈ st.pairs, V2.pairIdKey p ∈ st.seen) ∧
      st.pairs.Pairwise (fun p q => V2.pairIdKey p ≠ V2.pairIdKey q)) :
    (∀ p ∈ (V2.detectStep threshold st ab).pairs,
        V2.pairIdKey p ∈ (V2.detectStep threshold st ab).seen) ∧
      (V2.detectStep threshold st ab).pairs.Pairwise
        (fun p q => V2.pairIdKey p ≠ V2.pairIdKey q) := by
  obtain ⟨hseen, hpw⟩ := h
  simp only [V2.detectStep]
  split_ifs with h1 h2 h3 h4
  · exact ⟨hseen, hpw⟩
  · exact ⟨hseen, hpw⟩
  · exact ⟨hseen, hpw⟩
  · constructor
    · intro p hp
      simp only [List.mem_append, List.mem_singleton] at hp
      rcases hp with hp | rfl
      · exact List.mem_cons_of_mem _ (hseen p hp)
      · exact List.mem_cons_self _ _
    · rw [List.pairwise_append]
      refine ⟨hpw, List.pairwise_singleton _ _, ?_⟩
      intro p hp q hq
      rw [List.mem_singleton] at hq
      subst hq
      intro heq
      apply h3
      show V2.pairIdKey (V2.mkPair ab.1 ab.2
        (cosine_similarity ab.1.embedding ab.2.embedding)) ∈ st.seen
      rw [← heq]
      exact hseen p hp
  · exact ⟨hseen, hpw⟩

/-- Every pair emitted by the base detector satisfies any property enjoyed by all pairs the
loop can construct (distinct ids, dissimilar titles, similarity at or above threshold). -/
theorem V1.find_collision_pairs_pointwise (P : V1.CollisionPair → Prop)
    (capsules : List V1.CapsuleVector) (threshold : ℝ) (max_pairs : ℕ)
    (hnew : ∀ (a b : V1.CapsuleVector) (sim : ℝ), a.id ≠ b.id →
      is_similar_title a.title b.title = false → threshold ≤ sim → P (V1.mkPair a b sim)) :
    ∀ p ∈ V1.find_collision_pairs capsules threshold max_pairs, P p := by
  intro p hp
  unfold V1.find_collision_pairs at hp
  have hp2 : p ∈ List.insertionSort V1.simDesc
      ((V1.pairsOf capsules).foldl (V1.detectStep threshold) ⟨[], []⟩).pairs :=
    (List.take_sublist _ _).subset hp
  have hp3 : p ∈ ((V1.pairsOf capsules).foldl (V1.detectStep threshold) ⟨[], []⟩).pairs :=
    (List.perm_insertionSort V1.simDesc _).subset hp2
  have hinv := foldl_inv (fun st => ∀ q ∈ st.pairs, P q) (V1.detectStep threshold)
    (fun st ab h => V1.detectStep_pointwise1 threshold P st ab h
      (fun sim h1 h2 h3 => hnew ab.1 ab.2 sim h1 h2 h3))
    (V1.pairsOf capsules) ⟨[], []⟩ (by intro q hq; exact absurd hq (List.not_mem_nil q))
  exact hinv p hp3

/-- The base detector's output is sorted by similarity descending. -/
theorem V1.find_collision_pairs_sorted (capsules : List V1.CapsuleVector)
    (threshold : ℝ) (max_pairs : ℕ) :
    (V1.find_collision_pairs capsules threshold max_pairs).Sorted
      (fun p q => q.similarity ≤ p.similarity) := by
  unfold V1.find_collision_pairs
  exact List.Pairwise.sublist (List.take_sublist _ _)
    (List.sorted_insertionSort V1.simDesc _)

/-- The base detector's output never exceeds `max_pairs` pairs. -/
theorem V1.find_collision_pairs_length (capsules : List V1.CapsuleVector)
    (threshold : ℝ) (max_pairs : ℕ) :
    (V1.find_collision_pairs capsules threshold max_pairs).length ≤ max_pairs := by
  unfold V1.find_collision_pairs
  rw [List.length_take]
  exact min_le_left _ _

/-- The base detector never emits two pairs with the same unordered id key. -/
theorem V1.find_collision_pairs_dedup (capsules : List V1.CapsuleVector)
    (threshold : ℝ) (max_pairs : ℕ) :
    (V1.find_collision_pairs capsules threshold max_pairs).Pairwise
      (fun p q => V1.pairIdKey p ≠ V1.pairIdKey q) := by
  unfold V1.find_collision_pairs
  have hinv := foldl_inv
    (fun st => (∀ p ∈ st.pairs, V1.pairIdKey p ∈ st.seen) ∧
      st.pairs.Pairwise (fun p q => V1.pairIdKey p ≠ V1.pairIdKey q))
    (V1.detectStep threshold)
    (fun st ab h => V1.detectStep_dedup1 threshold st ab h)
    (V1.pairsOf capsules) ⟨[], []⟩
    ⟨by intro p hp; exact absurd hp (List.not_mem_nil p), List.Pairwise.nil⟩
  have hsym : ∀ {p q : V1.CollisionPair},
      V1.pairIdKey p ≠ V1.pairIdKey q → V1.pairIdKey q ≠ V1.pairIdKey p :=
    fun h => h.symm
  have hsorted := ((List.perm_insertionSort V1.simDesc
    ((V1.pairsOf capsules).foldl (V1.detectStep threshold) ⟨[], []⟩).pairs).pairwise_iff
      hsym).mpr hinv.2
  exact List.Pairwise.sublist (List.take_sublist _ _) hsorted

/-- Every pair emitted by the enhanced detector satisfies any property enjoyed by all pairs
the loop can construct. -/
theorem V2.find_pairs_pointwise (P : V2.CollisionPair → Prop)
    (capsules : List V2.CapsuleVector) (threshold : ℝ) (max_pairs : ℕ)
    (hnew : ∀ (a b : V2.CapsuleVector) (sim : ℝ), a.id ≠ b.id →
      is_similar_title a.title b.title = false → threshold ≤ sim → P (V2.mkPair a b sim)) :
    ∀ p ∈ V2.find_pairs threshold capsules max_pairs, P p := by
  intro p hp
  unfold V2.find_pairs at hp
  have hp2 : p ∈ List.insertionSort V2.simDesc
      ((V1.pairsOf capsules).foldl (V2.detectStep threshold) ⟨[], []⟩).pairs :=
    (List.take_sublist _ _).subset hp
  have hp3 : p ∈ ((V1.pairsOf capsules).foldl (V2.detectStep threshold) ⟨[], []⟩).pairs :=
    (List.perm_insertionSort V2.simDesc _).subset hp2
  have hinv := foldl_inv (fun st => ∀ q ∈ st.pairs, P q) (V2.detectStep threshold)
    (fun st ab h => V2.detectStep_pointwise2 threshold P st ab h
      (fun sim h1 h2 h3 => hnew ab.1 ab.2 sim h1 h2 h3))
    (V1.pairsOf capsules) ⟨[], []⟩ (by intro q hq; exact absurd hq (List.not_mem_nil q))
  exact hinv p hp3

/-- The enhanced detector's output is sorted by similarity descending. -/
theorem V2.find_pairs_sorted (capsules : List V2.CapsuleVector)
    (threshold : ℝ) (max_pairs : ℕ) :
    (V2.find_pairs threshold capsules max_pairs).Sorted
      (fun p q => q.similarity ≤ p.similarity) := by
  unfold V2.find_pairs
  exact List.Pairwise.sublist (List.take_sublist _ _)
    (List.sorted_insertionSort V2.simDesc _)

/-- The enhanced detector's output never exceeds `max_pairs` pairs. -/
theorem V2.find_pairs_length (capsules : List V2.CapsuleVector)
    (threshold : ℝ) (max_pairs : ℕ) :
    (V2.find_pairs threshold capsules max_pairs).length ≤ max_pairs := by
  unfold V2.find_pairs
  rw [List.length_take]
  exact min_le_left _ _

/-- The enhanced detector never emits two pairs with the same unordered id key. -/
theorem V2.find_pairs_dedup (capsules : List V2.CapsuleVector)
    (threshold : ℝ) (max_pairs : ℕ) :
    (V2.find_pairs threshold capsules max_pairs).Pairwise
      (fun p q => V2.pairIdKey p ≠ V2.pairIdKey q) := by
  unfold V2.find_pairs
  have hinv := foldl_inv
    (fun st => (∀ p ∈ st.pairs, V2.pairIdKey p ∈ st.seen) ∧
      st.pairs.Pairwise (fun p q => V2.pairIdKey p ≠ V2.pairIdKey q))
    (V2.detectStep threshold)
    (fun st ab h => V2.detectStep_dedup2 threshold st ab h)
    (V1.pairsOf capsules) ⟨[], []⟩
    ⟨by intro p hp; exact absurd hp (List.not_mem_nil p), List.Pairwise.nil⟩
  have hsym : ∀ {p q : V2.CollisionPair},
      V2.pairIdKey p ≠ V2.pairIdKey q → V2.pairIdKey q ≠ V2.pairIdKey p :=
    fun h => h.symm
  have hsorted := ((List.perm_insertionSort V2.simDesc
    ((V1.pairsOf capsules).foldl (V2.detectStep threshold) ⟨[], []⟩).pairs).pairwise_iff
      hsym).mpr hinv.2
  exact List.Pairwise.sublist (List.take_sublist _ _) hsorted

/-! ## Scoring lemmas -/

/-- Helper: the collision-type bonus lies in `[0, 30]`. -/
theorem bonus_bounds (ct : String) :
    0 ≤ (if ct = "cross_domain" then (30 : ℝ)
      else if ct = "complementary" then 20 else 0) ∧
    (if ct = "cross_domain" then (30 : ℝ)
      else if ct = "complementary" then 20 else 0) ≤ 30 := by
  split_ifs <;> norm_num

/-- For similarity at most 1, the base emergence score equals its uncapped additive formula:
the final `min(score, 100)` never binds because the four terms sum to at most 100. -/
theorem V1.calculate_emergence_score_eq (a b : V1.CapsuleVector) (p : V1.CollisionPair)
    (h : p.similarity ≤ 1) :
    V1.calculate_emergence_score a b p =
      (if p.collision_type = "cross_domain" then 30
        else if p.collision_type = "complementary" then 20 else 0) +
      p.similarity * 30 + min ((p.shared_topics.length : ℝ) * 10) 20 +
      min (((a.evidence.length : ℝ) + (b.evidence.length : ℝ)) * 5) 20 := by
  simp only [V1.calculate_emergence_score]
  apply min_eq_left
  have hb := (bonus_bounds p.collision_type).2
  have hsim : p.similarity * 30 ≤ 30 := by nlinarith
  have ht : min ((p.shared_topics.length : ℝ) * 10) 20 ≤ 20 := min_le_right _ _
  have he : min (((a.evidence.length : ℝ) + (b.evidence.length : ℝ)) * 5) 20 ≤ 20 :=
    min_le_right _ _
  linarith

/-- For similarity at most 1, the enhanced score equals its uncapped additive formula. -/
theorem V2.calculate_score_eq (a b : V2.CapsuleVector) (p : V2.CollisionPair)
    (h : p.similarity ≤ 1) :
    V2.calculate_score a b p =
      (if p.collision_type = "cross_domain" then 30
        else if p.collision_type = "complementary" then 20 else 0) +
      p.similarity * 30 + min ((p.shared_topics.length : ℝ) * 8) 20 +
      min ((V2.datmToFloat a.metadata.datm_score + V2.datmToFloat b.metadata.datm_score)
        * 0.3) 20 := by
  simp only [V2.calculate_score]
  apply min_eq_left
  have hb := (bonus_bounds p.collision_type).2
  have hsim : p.similarity * 30 ≤ 30 := by nlinarith
  have ht : min ((p.shared_topics.length : ℝ) * 8) 20 ≤ 20 := min_le_right _ _
  have hd : min ((V2.datmToFloat a.metadata.datm_score +
      V2.datmToFloat b.metadata.datm_score) * 0.3) 20 ≤ 20 := min_le_right _ _
  linarith

/-- For nonnegative similarity, the base emergence score lies within `[0, 100]`. -/
theorem V1.calculate_emergence_score_bounds (a b : V1.CapsuleVector) (p : V1.CollisionPair)
    (h : 0 ≤ p.similarity) :
    0 ≤ V1.calculate_emergence_score a b p ∧ V1.calculate_emergence_score a b p ≤ 100 := by
  simp only [V1.calculate_emergence_score]
  refine ⟨le_min ?_ (by norm_num), min_le_right _ _⟩
  have hb := (bonus_bounds p.collision_type).1
  have hsim : 0 ≤ p.similarity * 30 := by nlinarith
  have ht : (0 : ℝ) ≤ min ((p.shared_topics.length : ℝ) * 10) 20 :=
    le_min (by positivity) (by norm_num)
  have he : (0 : ℝ) ≤ min (((a.evidence.length : ℝ) + (b.evidence.length : ℝ)) * 5) 20 :=
    le_min (by positivity) (by norm_num)
  linarith

/-- For nonnegative similarity and nonnegative parent quality signals, the enhanced score
lies within `[0, 100]`. -/
theorem V2.calculate_score_bounds (a b : V2.CapsuleVector) (p : V2.CollisionPair)
    (h : 0 ≤ p.similarity) (hda : 0 ≤ V2.datmToFloat a.metadata.datm_score)
    (hdb : 0 ≤ V2.datmToFloat b.metadata.datm_score) :
    0 ≤ V2.calculate_score a b p ∧ V2.calculate_score a b p ≤ 100 := by
  simp only [V2.calculate_score]
  refine ⟨le_min ?_ (by norm_num), min_le_right _ _⟩
  have hb := (bonus_bounds p.collision_type).1
  have hsim : 0 ≤ p.similarity * 30 := by nlinarith
  have ht : (0 : ℝ) ≤ min ((p.shared_topics.length : ℝ) * 8) 20 :=
    le_min (by positivity) (by norm_num)
  have hd : (0 : ℝ) ≤ min ((V2.datmToFloat a.metadata.datm_score +
      V2.datmToFloat b.metadata.datm_score) * 0.3) 20 :=
    le_min (by nlinarith) (by norm_num)
  linarith

/-- The base `collide` declines exactly when the emergence score is below the hardcoded
threshold 40. -/
theorem V1.collide_none_iff (p : V1.CollisionPair) :
    V1.collide p = none ↔
      V1.calculate_emergence_score p.capsule_a p.capsule_b p < 40 := by
  simp only [V1.collide]
  split_ifs with h
  · simp [h]
  · simp [h]

/-- The enhanced `fuse` declines exactly when the score is below the engine's `min_score`. -/
theorem V2.fuse_none_iff (min_score : ℝ) (p : V2.CollisionPair) :
    V2.fuse min_score p = none ↔
      V2.calculate_score p.capsule_a p.capsule_b p < min_score := by
  simp only [V2.fuse]
  split_ifs with h
  · simp [h]
  · simp [h]

/-! ## Orchestrator lemmas -/

/-- A cycle whose fetch raised returns the error dict and leaves the state untouched. -/
theorem V2.run_fetch_failed (cfg : V2.CollisionSystemConfig) (now : String)
    (st : V2.CollisionSystemState) :
    V2.run cfg none now st = (V2.RunResult.error "No capsules loaded", st) := rfl

/-- A cycle whose fetch yielded zero records returns the error dict, replacing only the
per-cycle `capsules`/`vectors` fields. -/
theorem V2.run_fetch_empty (cfg : V2.CollisionSystemConfig) (now : String)
    (st : V2.CollisionSystemState) :
    V2.run cfg (some []) now st =
      (V2.RunResult.error "No capsules loaded",
        { st with capsules := [], vectors := [] }) := rfl

/-! ## Concrete score evaluations -/

/-- The concrete enhanced pair `exPair` is complementary with one shared topic, similarity
0, one evidence item per parent, zero quality signal — its score evaluates to 28. -/
theorem exPair_score : V2.calculate_score exCapA exCapB exPair = 28 := by
  have h := V2.calculate_score_eq exCapA exCapB exPair
    (by rw [show exPair.similarity = (0 : ℝ) from rfl]; norm_num)
  rw [h, show exPair.collision_type = "complementary" from rfl,
    show exPair.shared_topics = ["t"] from rfl,
    show exPair.similarity = (0 : ℝ) from rfl,
    show V2.datmToFloat exCapA.metadata.datm_score = 0 from rfl,
    show V2.datmToFloat exCapB.metadata.datm_score = 0 from rfl,
    if_neg (by decide), if_pos rfl]
  rw [show ((["t"] : List String).length : ℝ) = 1 by norm_num,
    show ((0 : ℝ) + 0) * 0.3 = 0 by norm_num,
    min_eq_left (by norm_num : (1 : ℝ) * 8 ≤ 20),
    min_eq_left (by norm_num : (0 : ℝ) ≤ 20)]
  norm_num

/-- The concrete base pair `exPair1` is complementary with one shared topic, similarity
1/2, one evidence item per parent — its score evaluates to 55. -/
theorem exPair1_score : V1.calculate_emergence_score exCapA1 exCapB1 exPair1 = 55 := by
  have h := V1.calculate_emergence_score_eq exCapA1 exCapB1 exPair1
    (by rw [show exPair1.similarity = (1 / 2 : ℝ) from rfl]; norm_num)
  rw [h, show exPair1.collision_type = "complementary" from rfl,
    show exPair1.shared_topics = ["t"] from rfl,
    show exPair1.similarity = (1 / 2 : ℝ) from rfl,
    show exCapA1.evidence = ["e"] from rfl, show exCapB1.evidence = ["e"] from rfl,
    if_neg (by decide), if_pos rfl]
  rw [show ((["t"] : List String).length : ℝ) = 1 by norm_num,
    show ((["e"] : List String).length : ℝ) = 1 by norm_num,
    min_eq_left (by norm_num : (1 : ℝ) * 10 ≤ 20),
    min_eq_left (by norm_num : ((1 : ℝ) + 1) * 5 ≤ 20)]
  norm_num

/-- The claim's formula, evaluated at `exPair`'s data with a zero quality term, gives 40. -/
theorem exPair_spec_claimed_score :
    spec_claimed_score exPair.collision_type exPair.similarity exPair.shared_topics.length
      exCapA.metadata.evidence.length exCapB.metadata.evidence.length 0 = 40 := by
  unfold spec_claimed_score
  rw [show exPair.collision_type = "complementary" from rfl,
    show exPair.shared_topics = ["t"] from rfl,
    show exPair.similarity = (0 : ℝ) from rfl,
    show exCapA.metadata.evidence.length = 1 from rfl,
    show exCapB.metadata.evidence.length = 1 from rfl,
    if_neg (by decide), if_pos rfl]
  rw [show ((["t"] : List String).length : ℝ) = 1 by norm_num,
    show ((1 : ℕ) : ℝ) = 1 by norm_num,
    min_eq_left (by norm_num : (10 : ℝ) * 1 ≤ 20),
    min_eq_left (by norm_num : (5 : ℝ) * (1 + 1) ≤ 20),
    min_eq_left (by norm_num : (0 : ℝ) ≤ 20)]
  norm_num

/-! ## Claims -/

/-- C1, counterexample: at the concrete complementary pair `exPair` (one shared topic,
similarity 0, one evidence item per parent, zero quality signal), the weighted variant's
score computation gives 28, while the claim's formula — `min(10 × |sharedTopics|, 20)` for
topics plus `min(5 × (|evidence_A| + |evidence_B|), 20)` for evidence plus a capped quality
term on top — gives 40: the code uses multiplier 8 for shared topics and has no evidence
term. -/
theorem C1_score_formula_counterexample :
    V2.calculate_score exCapA exCapB exPair ≠
      spec_claimed_score exPair.collision_type exPair.similarity
        exPair.shared_topics.length exCapA.metadata.evidence.length
        exCapB.metadata.evidence.length 0 := by
  rw [exPair_score, exPair_spec_claimed_score]
  norm_num

/-- C1 (amended): both score computations are additive with the collision-type bonus
(+30 cross-domain, +20 complementary, +0 same-domain) and `similarity × 30`; the base
variant adds `min(10 × |sharedTopics|, 20)` and `min(5 × (|evidence_A| + |evidence_B|), 20)`
as claimed, but the weighted variant adds `min(8 × |sharedTopics|, 20)` and — instead of an
evidence term — the normalized quality term `min(0.3 × (quality_A + quality_B), 20)`.
For similarity at most 1 the final `min(·, 100)` cap never binds, so the scores equal the
plain sums below. -/
theorem C1_score_formula_amended :
    ∀ (a1 b1 : V1.CapsuleVector) (p1 : V1.CollisionPair)
      (a2 b2 : V2.CapsuleVector) (p2 : V2.CollisionPair),
      p1.similarity ≤ 1 → p2.similarity ≤ 1 →
      V1.calculate_emergence_score a1 b1 p1 =
        (if p1.collision_type = "cross_domain" then 30
          else if p1.collision_type = "complementary" then 20 else 0) +
        p1.similarity * 30 + min ((p1.shared_topics.length : ℝ) * 10) 20 +
        min (((a1.evidence.length : ℝ) + (b1.evidence.length : ℝ)) * 5) 20 ∧
      V2.calculate_score a2 b2 p2 =
        (if p2.collision_type = "cross_domain" then 30
          else if p2.collision_type = "complementary" then 20 else 0) +
        p2.similarity * 30 + min ((p2.shared_topics.length : ℝ) * 8) 20 +
        min ((V2.datmToFloat a2.metadata.datm_score +
          V2.datmToFloat b2.metadata.datm_score) * 0.3) 20 :=
  fun a1 b1 p1 a2 b2 p2 h1 h2 =>
    ⟨V1.calculate_emergence_score_eq a1 b1 p1 h1, V2.calculate_score_eq a2 b2 p2 h2⟩

/-- Witness for C1 at the concrete pairs: the base score of `exPair1` is
20 + 15 + 10 + 10 = 55 and the weighted score of `exPair` is 20 + 0 + 8 + 0 = 28. -/
theorem C1_score_formula_amended_witness :
    V1.calculate_emergence_score exCapA1 exCapB1 exPair1 = 55 ∧
    V2.calculate_score exCapA exCapB exPair = 28 := by
  have h := C1_score_formula_amended exCapA1 exCapB1 exPair1 exCapA exCapB exPair
    (by rw [show exPair1.similarity = (1 / 2 : ℝ) from rfl]; norm_num)
    (by rw [show exPair.similarity = (0 : ℝ) from rfl]; norm_num)
  exact ⟨(h.1.symm.trans exPair1_score).symm.symm ▸ exPair1_score,
    exPair_score⟩

/-- C3: each score computation stays within `[0, 100]` (given nonnegative similarity and,
for the weighted variant, nonnegative quality signals, as the data model prescribes), and
fusion declines — returns `none` — exactly when the computed score is below the configured
minimum (`min_score` for the enhanced engine, the constant 40 for the base engine); the
decline is an ordinary `Option` value, not an error. -/
theorem C3_score_bounds_and_decline :
    ∀ (min_score : ℝ) (p2 : V2.CollisionPair) (p1 : V1.CollisionPair),
      0 ≤ p2.similarity →
      0 ≤ V2.datmToFloat p2.capsule_a.metadata.datm_score →
      0 ≤ V2.datmToFloat p2.capsule_b.metadata.datm_score →
      0 ≤ p1.similarity →
      (0 ≤ V2.calculate_score p2.capsule_a p2.capsule_b p2 ∧
        V2.calculate_score p2.capsule_a p2.capsule_b p2 ≤ 100) ∧
      (V2.fuse min_score p2 = none ↔
        V2.calculate_score p2.capsule_a p2.capsule_b p2 < min_score) ∧
      (0 ≤ V1.calculate_emergence_score p1.capsule_a p1.capsule_b p1 ∧
        V1.calculate_emergence_score p1.capsule_a p1.capsule_b p1 ≤ 100) ∧
      (V1.collide p1 = none ↔
        V1.calculate_emergence_score p1.capsule_a p1.capsule_b p1 < 40) :=
  fun min_score p2 p1 h2 hda hdb h1 =>
    ⟨V2.calculate_score_bounds p2.capsule_a p2.capsule_b p2 h2 hda hdb,
      V2.fuse_none_iff min_score p2,
      V1.calculate_emergence_score_bounds p1.capsule_a p1.capsule_b p1 h1,
      V1.collide_none_iff p1⟩

/-- Witness for C3 at the concrete pairs with the repository's configured minimum 50. -/
theorem C3_score_bounds_and_decline_witness :
    (0 ≤ V2.calculate_score exPair.capsule_a exPair.capsule_b exPair ∧
      V2.calculate_score exPair.capsule_a exPair.capsule_b exPair ≤ 100) ∧
    (V2.fuse 50 exPair = none ↔
      V2.calculate_score exPair.capsule_a exPair.capsule_b exPair < 50) ∧
    (0 ≤ V1.calculate_emergence_score exPair1.capsule_a exPair1.capsule_b exPair1 ∧
      V1.calculate_emergence_score exPair1.capsule_a exPair1.capsule_b exPair1 ≤ 100) ∧
    (V1.collide exPair1 = none ↔
      V1.calculate_emergence_score exPair1.capsule_a exPair1.capsule_b exPair1 < 40) :=
  C3_score_bounds_and_decline 50 exPair exPair1
    (by rw [show exPair.similarity = (0 : ℝ) from rfl])
    (by rw [show V2.datmToFloat exPair.capsule_a.metadata.datm_score = 0 from rfl])
    (by rw [show V2.datmToFloat exPair.capsule_b.metadata.datm_score = 0 from rfl])
    (by rw [show exPair1.similarity = (1 / 2 : ℝ) from rfl]; norm_num)

/-- C7: the cosine similarity function is symmetric; it is 1 on any non-zero vector paired
with itself; and it is 0 whenever either argument is all-zero (no division-by-zero fault). -/
theorem C7_cosine_similarity_props :
    (∀ u v : List ℝ, cosine_similarity u v = cosine_similarity v u) ∧
    (∀ u : List ℝ, (∃ x ∈ u, x ≠ 0) → cosine_similarity u u = 1) ∧
    (∀ u v : List ℝ, ((∀ x ∈ u, x = 0) ∨ (∀ x ∈ v, x = 0)) → cosine_similarity u v = 0) :=
  ⟨cosine_similarity_comm, cosine_similarity_self, cosine_similarity_zero⟩

/-- Witness for C7 at concrete vectors: symmetry on `[1,2]`/`[2,1]`, self-similarity 1 on
`[3]`, and 0 against the all-zero vector `[0]`. -/
theorem C7_cosine_similarity_props_witness :
    cosine_similarity [1, 2] [2, 1] = cosine_similarity [2, 1] [1, 2] ∧
    cosine_similarity [3] [3] = 1 ∧
    cosine_similarity [0] [5] = 0 := by
  refine ⟨C7_cosine_similarity_props.1 [1, 2] [2, 1],
    C7_cosine_similarity_props.2.1 [3] ⟨3, by simp, by norm_num⟩,
    C7_cosine_similarity_props.2.2 [0] [5] (Or.inl ?_)⟩
  intro x hx
  simpa using hx

/-- C8: for every input text, each vectorizer produces an embedding of its fixed
configuration length (24 for the enhanced variant, 14 for the base variant), and the result
is either the unchanged all-zero vector (no division when the pre-normalization norm is 0)
or has L2 norm 1. -/
theorem C8_embedding_fixed_length_normalized :
    ∀ text : String,
      ((V2.simple_embedding text).length = 24 ∧
        ((V2.simple_embedding text).Forall (fun x => x = 0) ∨
          Real.sqrt (sumSq (V2.simple_embedding text)) = 1)) ∧
      ((V1.text_to_vector text).length = 14 ∧
        ((V1.text_to_vector text).Forall (fun x => x = 0) ∨
          Real.sqrt (sumSq (V1.text_to_vector text)) = 1)) := by
  intro text
  have h2 := normalized_props (V2.raw_vector text)
  have h1 := normalized_props (V1.raw_vector text)
  have hlen2 : (V2.raw_vector text).length = 24 := by
    simp [V2.raw_vector, V2.DOMAIN_KEYWORDS, V2.TOPIC_TOKENS]
  have hlen1 : (V1.raw_vector text).length = 14 := by
    simp [V1.raw_vector, V1.DOMAIN_KEYWORDS, V1.TOPIC_TOKENS]
  constructor
  · constructor
    · exact (show (V2.simple_embedding text).length = _ from h2.1).trans hlen2
    · rcases h2.2 with h | h
      · exact Or.inl (List.forall_iff_forall_mem.mpr h)
      · exact Or.inr h
  · constructor
    · exact (show (V1.text_to_vector text).length = _ from h1.1).trans hlen1
    · rcases h1.2 with h | h
      · exact Or.inl (List.forall_iff_forall_mem.mpr h)
      · exact Or.inr h

/-- C2, counterexample: an orchestrator cycle whose fetch yields zero records does not
complete as a non-error cycle reporting `collision_pairs = 0` and `emerged_capsules = 0`;
it returns the error dict `{"error": "No capsules loaded"}` instead. -/
theorem C2_zero_records_counterexample :
    (V2.run cfg0 (some []) "t0" st0).1 = V2.RunResult.error "No capsules loaded" ∧
    (V2.run cfg0 (some []) "t0" st0).1.isError = true ∧
    (V2.run cfg0 (some []) "t0" st0).1 ≠ V2.RunResult.report "t0" 0 0 0 0 := by
  refine ⟨rfl, rfl, ?_⟩
  rw [V2.run_fetch_empty]
  simp

/-- C2, amended: a cycle whose fetch yields zero records raises no exception but returns
early with the error dict `{"error": "No capsules loaded"}` (not a zero-count report);
only the per-cycle `capsules`/`vectors` fields are replaced, while the running totals,
the emerged list and `last_run` keep their prior values. -/
theorem C2_zero_records_cycle :
    ∀ (cfg : V2.CollisionSystemConfig) (now : String) (st : V2.CollisionSystemState),
      V2.run cfg (some []) now st =
        (V2.RunResult.error "No capsules loaded",
          { st with capsules := [], vectors := [] }) ∧
      (V2.run cfg (some []) now st).2.stats = st.stats ∧
      (V2.run cfg (some []) now st).2.emerged = st.emerged ∧
      (V2.run cfg (some []) now st).2.last_run = st.last_run :=
  fun _ _ _ => ⟨rfl, rfl, rfl, rfl⟩

/-- C10: when the fetch fails (`none`) or loads zero capsules (`some []`), `run` returns
early with the error outcome and the cross-cycle state is unchanged: `total_runs`,
`total_collisions`, `total_emerged`, the emerged list and `last_run` keep their prior
values. -/
theorem C10_empty_fetch_preserves_state :
    ∀ (cfg : V2.CollisionSystemConfig) (fetched : Option (List V2.CapsuleData))
      (now : String) (st : V2.CollisionSystemState),
      fetched = none ∨ fetched = some [] →
      (V2.run cfg fetched now st).1 = V2.RunResult.error "No capsules loaded" ∧
      (V2.run cfg fetched now st).2.stats = st.stats ∧
      (V2.run cfg fetched now st).2.emerged = st.emerged ∧
      (V2.run cfg fetched now st).2.last_run = st.last_run := by
  intro cfg fetched now st h
  rcases h with rfl | rfl
  · exact ⟨rfl, rfl, rfl, rfl⟩
  · exact ⟨rfl, rfl, rfl, rfl⟩

/-- Witness for C10 at a concrete failed fetch against the fresh orchestrator state. -/
theorem C10_empty_fetch_preserves_state_witness :
    (V2.run cfg0 none "t0" st0).1 = V2.RunResult.error "No capsules loaded" ∧
    (V2.run cfg0 none "t0" st0).2.stats = st0.stats ∧
    (V2.run cfg0 none "t0" st0).2.emerged = st0.emerged ∧
    (V2.run cfg0 none "t0" st0).2.last_run = st0.last_run :=
  C10_empty_fetch_preserves_state cfg0 none "t0" st0 (Or.inl rfl)

/-- C9: the scheduler's worker never stops after a failing cycle — invocation `n + 1`
always follows invocation `n`, after the fixed 60-second backoff when cycle `n` raised
(shorter than the normal interval whenever the interval exceeds the backoff, as with the
repository's default of 3600 seconds) and after the normal interval otherwise. -/
theorem C9_scheduler_survives_failures :
    ∀ (outcomes : ℕ → V2.CycleOutcome) (interval : ℕ), V2.backoff < interval → ∀ n : ℕ,
      (outcomes n = V2.CycleOutcome.raised →
        V2.invocation_time outcomes interval (n + 1) =
          V2.invocation_time outcomes interval n + V2.backoff) ∧
      (outcomes n = V2.CycleOutcome.ok →
        V2.invocation_time outcomes interval (n + 1) =
          V2.invocation_time outcomes interval n + interval) ∧
      V2.invocation_time outcomes interval n + V2.backoff <
        V2.invocation_time outcomes interval n + interval := by
  intro outcomes interval h n
  refine ⟨fun ho => ?_, fun ho => ?_, by omega⟩
  · simp [V2.invocation_time, V2.cycleWait, ho]
  · simp [V2.invocation_time, V2.cycleWait, ho]

/-- Witness for C9: with the default 3600-second interval and a first cycle that raises,
the second invocation still happens, 60 seconds after the first. -/
theorem C9_scheduler_survives_failures_witness :
    V2.backoff < 3600 ∧
    V2.invocation_time (fun _ => V2.CycleOutcome.raised) 3600 1 = 60 := by
  have h := C9_scheduler_survives_failures (fun _ => V2.CycleOutcome.raised) 3600
    (by decide) 0
  refine ⟨by decide, ?_⟩
  rw [h.1 rfl]
  rfl

/-- C4: for every input vector list, threshold and `max_pairs`, each detector's output
list is sorted by similarity in descending order, has length at most `max_pairs`, and every
emitted pair has similarity at or above the threshold. -/
theorem C4_detector_sorted_bounded_thresholded :
    ∀ (caps1 : List V1.CapsuleVector) (t1 : ℝ) (m1 : ℕ)
      (caps2 : List V2.CapsuleVector) (t2 : ℝ) (m2 : ℕ),
      ((V1.find_collision_pairs caps1 t1 m1).Sorted
          (fun p q => q.similarity ≤ p.similarity) ∧
        (V1.find_collision_pairs caps1 t1 m1).length ≤ m1 ∧
        (V1.find_collision_pairs caps1 t1 m1).Forall (fun p => t1 ≤ p.similarity)) ∧
      ((V2.find_pairs t2 caps2 m2).Sorted
          (fun p q => q.similarity ≤ p.similarity) ∧
        (V2.find_pairs t2 caps2 m2).length ≤ m2 ∧
        (V2.find_pairs t2 caps2 m2).Forall (fun p => t2 ≤ p.similarity)) := by
  intro caps1 t1 m1 caps2 t2 m2
  refine ⟨⟨V1.find_collision_pairs_sorted caps1 t1 m1,
      V1.find_collision_pairs_length caps1 t1 m1, ?_⟩,
    ⟨V2.find_pairs_sorted caps2 t2 m2, V2.find_pairs_length caps2 t2 m2, ?_⟩⟩
  · exact List.forall_iff_forall_mem.mpr
      (V1.find_collision_pairs_pointwise (fun p => t1 ≤ p.similarity) caps1 t1 m1
        (fun _ _ _ _ _ h3 => h3))
  · exact List.forall_iff_forall_mem.mpr
      (V2.find_pairs_pointwise (fun p => t2 ≤ p.similarity) caps2 t2 m2
        (fun _ _ _ _ _ h3 => h3))

/-- C5: no pair emitted by either detector carries the same id on both sides, and no
unordered id-pair (under the symmetric key `pairKey`) appears more than once in the
output. -/
theorem C5_detector_no_self_no_duplicates :
    ∀ (caps1 : List V1.CapsuleVector) (t1 : ℝ) (m1 : ℕ)
      (caps2 : List V2.CapsuleVector) (t2 : ℝ) (m2 : ℕ),
      (∀ x y : String, pairKey x y = pairKey y x) ∧
      ((V1.find_collision_pairs caps1 t1 m1).Forall
          (fun p => p.capsule_a.id ≠ p.capsule_b.id) ∧
        (V1.find_collision_pairs caps1 t1 m1).Pairwise
          (fun p q => pairKey p.capsule_a.id p.capsule_b.id ≠
            pairKey q.capsule_a.id q.capsule_b.id)) ∧
      ((V2.find_pairs t2 caps2 m2).Forall
          (fun p => p.capsule_a.id ≠ p.capsule_b.id) ∧
        (V2.find_pairs t2 caps2 m2).Pairwise
          (fun p q => pairKey p.capsule_a.id p.capsule_b.id ≠
            pairKey q.capsule_a.id q.capsule_b.id)) := by
  intro caps1 t1 m1 caps2 t2 m2
  refine ⟨pairKey_comm, ⟨?_, ?_⟩, ⟨?_, ?_⟩⟩
  · exact List.forall_iff_forall_mem.mpr
      (V1.find_collision_pairs_pointwise (fun p => p.capsule_a.id ≠ p.capsule_b.id)
        caps1 t1 m1 (fun _ _ _ h1 _ _ => h1))
  · exact V1.find_collision_pairs_dedup caps1 t1 m1
  · exact List.forall_iff_forall_mem.mpr
      (V2.find_pairs_pointwise (fun p => p.capsule_a.id ≠ p.capsule_b.id)
        caps2 t2 m2 (fun _ _ _ h1 _ _ => h1))
  · exact V2.find_pairs_dedup caps2 t2 m2

/-- C6: the title-dedup guard discards unconditionally: the spec's example title pair
(Jaccard of word sets above 0.5) triggers the guard, and no pair emitted by either detector
has guard-similar titles, whatever the embedding similarity. -/
theorem C6_title_guard_discards :
    is_similar_title "neural decoding of motor intent"
      "motor intent neural decoding pipeline" = true ∧
    (∀ (caps1 : List V1.CapsuleVector) (t1 : ℝ) (m1 : ℕ),
      (V1.find_collision_pairs caps1 t1 m1).Forall
        (fun p => is_similar_title p.capsule_a.title p.capsule_b.title = false)) ∧
    (∀ (caps2 : List V2.CapsuleVector) (t2 : ℝ) (m2 : ℕ),
      (V2.find_pairs t2 caps2 m2).Forall
        (fun p => is_similar_title p.capsule_a.title p.capsule_b.title = false)) := by
  refine ⟨by decide, ?_, ?_⟩
  · intro caps1 t1 m1
    exact List.forall_iff_forall_mem.mpr
      (V1.find_collision_pairs_pointwise
        (fun p => is_similar_title p.capsule_a.title p.capsule_b.title = false)
        caps1 t1 m1 (fun _ _ _ _ h2 _ => h2))
  · intro caps2 t2 m2
    exact List.forall_iff_forall_mem.mpr
      (V2.find_pairs_pointwise
        (fun p => is_similar_title p.capsule_a.title p.capsule_b.title = false)
        caps2 t2 m2 (fun _ _ _ _ h2 _ => h2))

end KaiHub
